import Mathlib

/-!
Verification development for the frog-quest-battle sources.

The definitions below are a shallow embedding of the Rust sources:
geometry mirrors the euclid types at `i32` (embedded as `Int`), the
simulation step mirrors `src/game.rs` (`move_player`, `physics`) as driven
per player by `src/net.rs::move_sprites`, the input wire byte mirrors
`src/net.rs::input` together with the enumset bit layout of
`src/input.rs::Input`, the framebuffer write mirrors
`src/renderer.rs::color_pixel`, the player fill color mirrors
`src/game.rs::arbitrary_color` (std `DefaultHasher`, i.e. SipHash-1-3 with
zero keys, on a wasm32 `usize`), and the menu cursor mirrors
`src/menu.rs::Menu`.
-/

namespace FrogQuest

/-- Integer point in the Pixels space, mirroring euclid `Point2D<i32, Pixels>`. -/
structure Point where
  x : Int
  y : Int
deriving DecidableEq

/-- Integer size, mirroring euclid `Size2D<i32, Pixels>`. -/
structure Size where
  width : Int
  height : Int
deriving DecidableEq

/-- Axis-aligned rectangle, mirroring euclid `Rect<i32, Pixels>` (origin is the top-left corner). -/
structure Rect where
  origin : Point
  size : Size
deriving DecidableEq

/-- Integer vector, mirroring euclid `Vector2D<i32, Pixels>`. -/
structure Vector2 where
  x : Int
  y : Int
deriving DecidableEq

/-- Color with three 8-bit channels, mirroring `renderer::Color`. -/
structure Color where
  r : Nat
  g : Nat
  b : Nat
deriving DecidableEq

/-- The logical pixel grid, mirroring `renderer::RENDER_RECT` (origin (0,0), size 315 by 143). -/
def RENDER_RECT : Rect := ⟨⟨0, 0⟩, ⟨315, 143⟩⟩

/-- Membership of a point in a rectangle, mirroring euclid `Rect::contains`
(half-open on the right and bottom edges). -/
def Rect.contains (r : Rect) (p : Point) : Prop :=
  r.origin.x ≤ p.x ∧ p.x < r.origin.x + r.size.width ∧
  r.origin.y ≤ p.y ∧ p.y < r.origin.y + r.size.height

instance (r : Rect) (p : Point) : Decidable (r.contains p) := by
  unfold Rect.contains; infer_instance

/-- Rectangle overlap, mirroring euclid `Rect::intersects`. -/
def Rect.intersects (a b : Rect) : Prop :=
  a.origin.x < b.origin.x + b.size.width ∧ b.origin.x < a.origin.x + a.size.width ∧
  a.origin.y < b.origin.y + b.size.height ∧ b.origin.y < a.origin.y + a.size.height

instance (a b : Rect) : Decidable (a.intersects b) := by
  unfold Rect.intersects; infer_instance

/-- The per-frame input set over Up, Down, Left, Right, Primary, mirroring
`enumset::EnumSet<Input>` for `input::Input`. -/
structure InputSet where
  up : Bool
  down : Bool
  left : Bool
  right : Bool
  primary : Bool
deriving DecidableEq

/-- The wire byte of an input set, mirroring `EnumSet::as_u8` as used by
`net::input`: bit i is set when variant i of `Input` is in the set
(Up is bit 0, Down bit 1, Left bit 2, Right bit 3, Primary bit 4). -/
def InputSet.asU8 (s : InputSet) : Nat :=
  (if s.up then 1 else 0) + (if s.down then 2 else 0) + (if s.left then 4 else 0) +
    (if s.right then 8 else 0) + (if s.primary then 16 else 0)

/-- Decoding of the wire byte, mirroring `EnumSet::from_u8` as used by
`net::move_sprites` (on bytes whose bits all correspond to variants). -/
def InputSet.fromU8 (n : Nat) : InputSet :=
  ⟨n.testBit 0, n.testBit 1, n.testBit 2, n.testBit 3, n.testBit 4⟩

/-- Velocity update from the inputs, mirroring `game::move_player`: builds a
direction vector from Up, Down, Left, Right and adds it to the velocity.
The Primary bit is never read. -/
def move_player (input : InputSet) (velocity : Vector2) : Vector2 :=
  let dx : Int := (if input.left then -1 else 0) + (if input.right then 1 else 0)
  let dy : Int := (if input.up then -1 else 0) + (if input.down then 1 else 0)
  ⟨velocity.x + dx, velocity.y + dy⟩

/-- One player's physics update, mirroring the loop body of `game::physics`:
integrate the origin by the velocity; if the new origin.y is at most 0 or
origin.y plus height exceeds the render height, negate the vertical
velocity; if the moved rectangle no longer intersects RENDER_RECT, reset
origin.x to minus the width. -/
def physics (b : Rect) (v : Vector2) : Rect × Vector2 :=
  let o1 : Point := ⟨b.origin.x + v.x, b.origin.y + v.y⟩
  let v1 : Vector2 :=
    if o1.y ≤ 0 ∨ o1.y + b.size.height > RENDER_RECT.size.height then ⟨v.x, -v.y⟩ else v
  let b1 : Rect := ⟨o1, b.size⟩
  let b2 : Rect :=
    if ¬ RENDER_RECT.intersects b1 then ⟨⟨-b.size.width, o1.y⟩, b.size⟩ else b1
  (b2, v1)

/-- One simulation step for one player, as performed by `net::move_sprites`:
`move_player` on the velocity followed by `physics`. Players are updated
independently, so the per-player step determines the whole step. -/
def move_sprites1 (input : InputSet) (b : Rect) (v : Vector2) : Rect × Vector2 :=
  physics b (move_player input v)

/-- Claim C1 fails on the code: a player with horizontal velocity 2 holding
Right ends the step with horizontal velocity 3, outside [-2, 2]; the step
performs no clamping. -/
theorem c1_cex :
    ¬ (-2 ≤ (move_sprites1 ⟨false, false, false, true, false⟩
              ⟨⟨10, 10⟩, ⟨10, 10⟩⟩ ⟨2, 0⟩).2.x ∧
       (move_sprites1 ⟨false, false, false, true, false⟩
              ⟨⟨10, 10⟩, ⟨10, 10⟩⟩ ⟨2, 0⟩).2.x ≤ 2) := by
  decide

/-- Claim C1 (amended): one simulation step changes each player's horizontal
velocity by at most 1 (the per-input delta); the code never clamps it to
[-2, 2]. -/
theorem c1_velocity_delta (input : InputSet) (b : Rect) (v : Vector2) :
    v.x - 1 ≤ (move_sprites1 input b v).2.x ∧ (move_sprites1 input b v).2.x ≤ v.x + 1 := by
  simp only [move_sprites1, physics, move_player]
  split_ifs <;> dsimp only <;> omega

/-- Claim C5 fails on the code: in the spec scenario S2 (player at (10,100),
zero velocity, Primary pressed with the flap cooldown elapsed) the step
leaves the vertical velocity at 0 rather than setting it to -2. -/
theorem c5_cex :
    (move_sprites1 ⟨false, false, false, false, true⟩
        ⟨⟨10, 100⟩, ⟨10, 10⟩⟩ ⟨0, 0⟩).2.y = 0 ∧ (0 : Int) ≠ -2 := by
  decide

/-- Claim C5 (amended): the Primary input has no effect on the simulation
step; `move_player` never reads it and there is no flap or `last_flap_frame`
state in the code. -/
theorem c5_primary_noop (input : InputSet) (b : Rect) (v : Vector2) :
    move_sprites1 input b v =
      move_sprites1 ⟨input.up, input.down, input.left, input.right, false⟩ b v := rfl

/-- Claim C9: `move_player` adds to the velocity exactly the sum of the
per-input deltas of Up, Down, Left and Right; the Primary input and the
empty input set leave the velocity unchanged. -/
theorem c9_move_player_deltas (input : InputSet) (v : Vector2) :
    (move_player input v).x =
        v.x + (if input.left then -1 else 0) + (if input.right then 1 else 0) ∧
    (move_player input v).y =
        v.y + (if input.up then -1 else 0) + (if input.down then 1 else 0) ∧
    move_player ⟨false, false, false, false, true⟩ v = v ∧
    move_player ⟨false, false, false, false, false⟩ v = v := by
  refine ⟨?_, ?_, ?_, ?_⟩ <;> simp only [move_player] <;> split_ifs <;> simp

/-- Helper about `physics`: when the integrated origin.y triggers the ceiling
or ground condition the vertical velocity is negated, the horizontal
velocity is untouched, and origin.y keeps its integrated value. -/
theorem physics_y_negate (b : Rect) (v : Vector2)
    (h : b.origin.y + v.y ≤ 0 ∨ b.origin.y + v.y + b.size.height > 143) :
    (physics b v).2.y = -v.y ∧ (physics b v).2.x = v.x ∧
    (physics b v).1.origin.y = b.origin.y + v.y := by
  refine ⟨?_, ?_, ?_⟩ <;> simp only [physics, RENDER_RECT] <;>
    split_ifs <;> dsimp only <;> omega

/-- Helper about `physics`: the resulting origin.x always lies in
[-width, 315] (for positive width), and equals -width whenever the
integrated rectangle does not intersect RENDER_RECT. -/
theorem physics_x_range (b : Rect) (v : Vector2) (hw : 0 < b.size.width) :
    -b.size.width ≤ (physics b v).1.origin.x ∧ (physics b v).1.origin.x ≤ 315 ∧
    (¬ RENDER_RECT.intersects ⟨⟨b.origin.x + v.x, b.origin.y + v.y⟩, b.size⟩ →
      (physics b v).1.origin.x = -b.size.width) := by
  simp only [physics, RENDER_RECT, Rect.intersects]
  split_ifs <;> refine ⟨?_, ?_, fun h => ?_⟩ <;> dsimp only <;> omega

/-- Claim C2 fails on the code: a player at origin.y = 130 of height 10 with
vertical velocity 10 ends the step at origin.y = 140, outside
[0, 143 - 10]; the ground rule negates the velocity but never clamps the
position. -/
theorem c2_cex :
    (move_sprites1 ⟨false, false, false, false, false⟩
        ⟨⟨10, 130⟩, ⟨10, 10⟩⟩ ⟨0, 10⟩).1.origin.y = 140 ∧
    ¬ (0 ≤ (140 : Int) ∧ (140 : Int) ≤ 143 - 10) := by
  decide

/-- Claim C2 (amended): when the integrated position violates the ground
condition (origin.y + height > 143) the step negates the vertical velocity
and leaves origin.y at its integrated value; origin.y is not clamped to
143 - height and the vertical velocity is not zeroed. -/
theorem c2_ground_negates (input : InputSet) (b : Rect) (v : Vector2)
    (h : b.origin.y + (move_player input v).y + b.size.height > 143) :
    (move_sprites1 input b v).2.y = -(move_player input v).y ∧
    (move_sprites1 input b v).1.origin.y = b.origin.y + (move_player input v).y := by
  have h' := physics_y_negate b (move_player input v) (Or.inr h)
  exact ⟨h'.1, h'.2.2⟩

/-- Witness for c2_ground_negates at the concrete state of c2_cex. -/
theorem c2_ground_witness :
    ((⟨⟨10, 130⟩, ⟨10, 10⟩⟩ : Rect).origin.y +
        (move_player ⟨false, false, false, false, false⟩ ⟨0, 10⟩).y +
        (⟨⟨10, 130⟩, ⟨10, 10⟩⟩ : Rect).size.height > 143) ∧
    ((move_sprites1 ⟨false, false, false, false, false⟩
        ⟨⟨10, 130⟩, ⟨10, 10⟩⟩ ⟨0, 10⟩).2.y =
          -(move_player ⟨false, false, false, false, false⟩ ⟨0, 10⟩).y ∧
     (move_sprites1 ⟨false, false, false, false, false⟩
        ⟨⟨10, 130⟩, ⟨10, 10⟩⟩ ⟨0, 10⟩).1.origin.y =
          (⟨⟨10, 130⟩, ⟨10, 10⟩⟩ : Rect).origin.y +
            (move_player ⟨false, false, false, false, false⟩ ⟨0, 10⟩).y) :=
  ⟨by decide,
   c2_ground_negates ⟨false, false, false, false, false⟩
     ⟨⟨10, 130⟩, ⟨10, 10⟩⟩ ⟨0, 10⟩ (by decide)⟩

/-- Claim C3 fails on the code: in the spec scenario S3 (player at (10,1)
with velocity (0,-4)) one step yields origin.y = -3 and vertical velocity 4,
not origin.y = 0 and velocity 2; the ceiling rule negates the full velocity
and does not reset origin.y. -/
theorem c3_cex :
    (move_sprites1 ⟨false, false, false, false, false⟩
        ⟨⟨10, 1⟩, ⟨10, 10⟩⟩ ⟨0, -4⟩).1.origin.y = -3 ∧
    (move_sprites1 ⟨false, false, false, false, false⟩
        ⟨⟨10, 1⟩, ⟨10, 10⟩⟩ ⟨0, -4⟩).2.y = 4 ∧
    ¬ ((-3 : Int) = 0 ∧ (4 : Int) = 2) := by
  decide

/-- Claim C3 (amended): when the integrated origin.y is at most 0 the step
sets the vertical velocity to its full negation (not halved) and leaves
origin.y at its integrated value (not 0). -/
theorem c3_ceiling_negates (input : InputSet) (b : Rect) (v : Vector2)
    (h : b.origin.y + (move_player input v).y ≤ 0) :
    (move_sprites1 input b v).2.y = -(move_player input v).y ∧
    (move_sprites1 input b v).1.origin.y = b.origin.y + (move_player input v).y := by
  have h' := physics_y_negate b (move_player input v) (Or.inl h)
  exact ⟨h'.1, h'.2.2⟩

/-- Witness for c3_ceiling_negates at the concrete state of spec scenario S3. -/
theorem c3_ceiling_witness :
    ((⟨⟨10, 1⟩, ⟨10, 10⟩⟩ : Rect).origin.y +
        (move_player ⟨false, false, false, false, false⟩ ⟨0, -4⟩).y ≤ 0) ∧
    ((move_sprites1 ⟨false, false, false, false, false⟩
        ⟨⟨10, 1⟩, ⟨10, 10⟩⟩ ⟨0, -4⟩).2.y =
          -(move_player ⟨false, false, false, false, false⟩ ⟨0, -4⟩).y ∧
     (move_sprites1 ⟨false, false, false, false, false⟩
        ⟨⟨10, 1⟩, ⟨10, 10⟩⟩ ⟨0, -4⟩).1.origin.y =
          (⟨⟨10, 1⟩, ⟨10, 10⟩⟩ : Rect).origin.y +
            (move_player ⟨false, false, false, false, false⟩ ⟨0, -4⟩).y) :=
  ⟨by decide,
   c3_ceiling_negates ⟨false, false, false, false, false⟩
     ⟨⟨10, 1⟩, ⟨10, 10⟩⟩ ⟨0, -4⟩ (by decide)⟩

/-- Claim C4 fails on the code: in the spec scenario S4 (player at x = 316 of
width 10, zero velocity) the step sets origin.x to -width = -10, not to
316 - (315 + 10) = -9; nothing is subtracted or added. -/
theorem c4_cex :
    (move_sprites1 ⟨false, false, false, false, false⟩
        ⟨⟨316, 50⟩, ⟨10, 10⟩⟩ ⟨0, 0⟩).1.origin.x = -10 ∧
    (-10 : Int) ≠ 316 - (315 + 10) := by
  decide

/-- Claim C4 (amended): for a player whose origin.x lies outside
[-width, 315] (width positive), one step does return origin.x to that range,
but the mechanism is a reset: whenever the integrated rectangle no longer
intersects RENDER_RECT the step sets origin.x to -width, rather than
subtracting or adding W + width. -/
theorem c4_wrap_resets (input : InputSet) (b : Rect) (v : Vector2)
    (hw : 0 < b.size.width)
    (hout : b.origin.x < -b.size.width ∨ 315 < b.origin.x) :
    (-b.size.width ≤ (move_sprites1 input b v).1.origin.x ∧
      (move_sprites1 input b v).1.origin.x ≤ 315) ∧
    (¬ RENDER_RECT.intersects
        ⟨⟨b.origin.x + (move_player input v).x,
          b.origin.y + (move_player input v).y⟩, b.size⟩ →
      (move_sprites1 input b v).1.origin.x = -b.size.width) := by
  have h' := physics_x_range b (move_player input v) hw
  exact ⟨⟨h'.1, h'.2.1⟩, h'.2.2⟩

/-- Witness for c4_wrap_resets at the concrete state of spec scenario S4. -/
theorem c4_wrap_witness :
    (0 < (⟨⟨316, 50⟩, ⟨10, 10⟩⟩ : Rect).size.width) ∧
    ((⟨⟨316, 50⟩, ⟨10, 10⟩⟩ : Rect).origin.x <
        -(⟨⟨316, 50⟩, ⟨10, 10⟩⟩ : Rect).size.width ∨
      315 < (⟨⟨316, 50⟩, ⟨10, 10⟩⟩ : Rect).origin.x) ∧
    ((-(⟨⟨316, 50⟩, ⟨10, 10⟩⟩ : Rect).size.width ≤
        (move_sprites1 ⟨false, false, false, false, false⟩
          ⟨⟨316, 50⟩, ⟨10, 10⟩⟩ ⟨0, 0⟩).1.origin.x ∧
      (move_sprites1 ⟨false, false, false, false, false⟩
          ⟨⟨316, 50⟩, ⟨10, 10⟩⟩ ⟨0, 0⟩).1.origin.x ≤ 315) ∧
     (¬ RENDER_RECT.intersects
        ⟨⟨(⟨⟨316, 50⟩, ⟨10, 10⟩⟩ : Rect).origin.x +
            (move_player ⟨false, false, false, false, false⟩ ⟨0, 0⟩).x,
          (⟨⟨316, 50⟩, ⟨10, 10⟩⟩ : Rect).origin.y +
            (move_player ⟨false, false, false, false, false⟩ ⟨0, 0⟩).y⟩,
          (⟨⟨316, 50⟩, ⟨10, 10⟩⟩ : Rect).size⟩ →
      (move_sprites1 ⟨false, false, false, false, false⟩
          ⟨⟨316, 50⟩, ⟨10, 10⟩⟩ ⟨0, 0⟩).1.origin.x =
        -(⟨⟨316, 50⟩, ⟨10, 10⟩⟩ : Rect).size.width)) :=
  ⟨by decide, by decide,
   c4_wrap_resets ⟨false, false, false, false, false⟩
     ⟨⟨316, 50⟩, ⟨10, 10⟩⟩ ⟨0, 0⟩ (by decide) (by decide)⟩

/-- Claim C6: decoding the wire byte produced for any input set yields the
same input set back. -/
theorem c6_input_roundtrip (s : InputSet) : InputSet.fromU8 s.asU8 = s := by
  rcases s with ⟨u, d, l, r, p⟩
  cases u <;> cases d <;> cases l <;> cases r <;> cases p <;> decide

/-- Framebuffer pixel write, mirroring `CanvasRenderer::color_pixel`: assert
the point is inside RENDER_RECT, compute the byte offset
(pos.y * width + pos.x) * 4, and store the four bytes r, g, b, 255 there.
A failed assertion or an out-of-bounds buffer index (a Rust panic) is
modelled as `none`. -/
def color_pixel (pos : Point) (color : Color) (buffer : List Nat) :
    Option (List Nat) :=
  if RENDER_RECT.contains pos then
    let i : Nat := (pos.y * RENDER_RECT.size.width + pos.x).toNat * 4
    if i + 3 < buffer.length then
      some ((((buffer.set i color.r).set (i + 1) color.g).set
              (i + 2) color.b).set (i + 3) 255)
    else none
  else none

/-- Claim C7: on a framebuffer of 315 * 143 * 4 bytes, `color_pixel` at a
point inside RENDER_RECT writes exactly the four bytes r, g, b, 255 at
offset (pos.y * 315 + pos.x) * 4, leaving every other byte unchanged and
with no assertion or indexing failure; at a point outside RENDER_RECT it
fails the assertion. -/
theorem c7_color_pixel_spec (pos : Point) (color : Color) (buffer : List Nat)
    (hlen : buffer.length = 315 * 143 * 4) :
    (RENDER_RECT.contains pos →
      ∃ buffer', color_pixel pos color buffer = some buffer' ∧
        buffer'.length = buffer.length ∧
        buffer'[(pos.y * 315 + pos.x).toNat * 4]? = some color.r ∧
        buffer'[(pos.y * 315 + pos.x).toNat * 4 + 1]? = some color.g ∧
        buffer'[(pos.y * 315 + pos.x).toNat * 4 + 2]? = some color.b ∧
        buffer'[(pos.y * 315 + pos.x).toNat * 4 + 3]? = some 255 ∧
        ∀ j : Nat, (j < (pos.y * 315 + pos.x).toNat * 4 ∨
            (pos.y * 315 + pos.x).toNat * 4 + 3 < j) →
          buffer'[j]? = buffer[j]?) ∧
    (¬ RENDER_RECT.contains pos → color_pixel pos color buffer = none) := by
  constructor
  · intro hp
    have hp' := hp
    obtain ⟨hx0, hx1, hy0, hy1⟩ := hp
    simp only [RENDER_RECT] at hx0 hx1 hy0 hy1
    have hi : (pos.y * 315 + pos.x).toNat * 4 + 3 < buffer.length := by
      rw [hlen]
      have hle : pos.y * 315 ≤ 142 * 315 := by
        apply mul_le_mul_of_nonneg_right _ (by norm_num)
        omega
      omega
    have hstep : color_pixel pos color buffer =
        some ((((buffer.set ((pos.y * 315 + pos.x).toNat * 4) color.r).set
            ((pos.y * 315 + pos.x).toNat * 4 + 1) color.g).set
            ((pos.y * 315 + pos.x).toNat * 4 + 2) color.b).set
            ((pos.y * 315 + pos.x).toNat * 4 + 3) 255) := by
      simp only [color_pixel, RENDER_RECT]
      split_ifs with h1
      · rfl
      · exact absurd (show Rect.contains ⟨⟨0, 0⟩, ⟨315, 143⟩⟩ pos from
          ⟨hx0, hx1, hy0, hy1⟩) h1
    refine ⟨_, hstep, ?_, ?_, ?_, ?_, ?_, ?_⟩
    · simp [List.length_set]
    · rw [List.getElem?_set_ne (by omega), List.getElem?_set_ne (by omega),
        List.getElem?_set_ne (by omega), List.getElem?_set_self (by omega)]
    · rw [List.getElem?_set_ne (by omega), List.getElem?_set_ne (by omega),
        List.getElem?_set_self (by simp only [List.length_set]; omega)]
    · rw [List.getElem?_set_ne (by omega),
        List.getElem?_set_self (by simp only [List.length_set]; omega)]
    · rw [List.getElem?_set_self (by simp only [List.length_set]; omega)]
    · intro j hj
      rw [List.getElem?_set_ne (by omega), List.getElem?_set_ne (by omega),
        List.getElem?_set_ne (by omega), List.getElem?_set_ne (by omega)]
  · intro hp
    simp only [color_pixel]
    rw [if_neg hp]

/-- Witness for c7_color_pixel_spec on the all-zero framebuffer at the
origin pixel. -/
theorem c7_color_pixel_witness :
    ((List.replicate (315 * 143 * 4) 0).length = 315 * 143 * 4) ∧
    ((RENDER_RECT.contains ⟨0, 0⟩ →
      ∃ buffer', color_pixel ⟨0, 0⟩ ⟨1, 2, 3⟩ (List.replicate (315 * 143 * 4) 0) =
          some buffer' ∧
        buffer'.length = (List.replicate (315 * 143 * 4) 0).length ∧
        buffer'[((⟨0, 0⟩ : Point).y * 315 + (⟨0, 0⟩ : Point).x).toNat * 4]? =
          some (⟨1, 2, 3⟩ : Color).r ∧
        buffer'[((⟨0, 0⟩ : Point).y * 315 + (⟨0, 0⟩ : Point).x).toNat * 4 + 1]? =
          some (⟨1, 2, 3⟩ : Color).g ∧
        buffer'[((⟨0, 0⟩ : Point).y * 315 + (⟨0, 0⟩ : Point).x).toNat * 4 + 2]? =
          some (⟨1, 2, 3⟩ : Color).b ∧
        buffer'[((⟨0, 0⟩ : Point).y * 315 + (⟨0, 0⟩ : Point).x).toNat * 4 + 3]? =
          some 255 ∧
        ∀ j : Nat, (j < ((⟨0, 0⟩ : Point).y * 315 + (⟨0, 0⟩ : Point).x).toNat * 4 ∨
            ((⟨0, 0⟩ : Point).y * 315 + (⟨0, 0⟩ : Point).x).toNat * 4 + 3 < j) →
          buffer'[j]? = (List.replicate (315 * 143 * 4) 0)[j]?) ∧
    (¬ RENDER_RECT.contains ⟨0, 0⟩ →
      color_pixel ⟨0, 0⟩ ⟨1, 2, 3⟩ (List.replicate (315 * 143 * 4) 0) = none)) :=
  ⟨List.length_replicate (315 * 143 * 4) 0,
   c7_color_pixel_spec ⟨0, 0⟩ ⟨1, 2, 3⟩ (List.replicate (315 * 143 * 4) 0)
     (List.length_replicate (315 * 143 * 4) 0)⟩

/-- The fixed 4-color table, mirroring `graphics::PALLET`. -/
def PALLET : List Color :=
  [⟨6, 35, 39⟩, ⟨28, 124, 148⟩, ⟨254, 160, 0⟩, ⟨250, 232, 150⟩]

/-- Modulus for 64-bit words of the SipHash state. -/
def M64 : Nat := 18446744073709551616

/-- Left rotation of a 64-bit word (input below 2^64). -/
def rotl64 (x r : Nat) : Nat := ((x <<< r) % M64) ||| (x >>> (64 - r))

/-- State of the SipHash mixer: four 64-bit words. -/
structure SipState where
  v0 : Nat
  v1 : Nat
  v2 : Nat
  v3 : Nat

/-- One SIPROUND of the SipHash reference algorithm, as implemented by the
Rust standard library hasher backing `DefaultHasher`. -/
def sipRound (s : SipState) : SipState :=
  let a0 := (s.v0 + s.v1) % M64
  let a1 := rotl64 s.v1 13
  let b1 := a1 ^^^ a0
  let b0 := rotl64 a0 32
  let a2 := (s.v2 + s.v3) % M64
  let a3 := rotl64 s.v3 16
  let b3 := a3 ^^^ a2
  let c0 := (b0 + b3) % M64
  let c3 := rotl64 b3 21
  let d3 := c3 ^^^ c0
  let c2 := (a2 + b1) % M64
  let c1 := rotl64 b1 17
  let d1 := c1 ^^^ c2
  let d2 := rotl64 c2 32
  ⟨c0, d1, d2, d3⟩

/-- Initial SipHash state for keys k0 = k1 = 0, as produced by
`DefaultHasher::new()` (the four SipHash initialization constants). -/
def sipInit : SipState :=
  ⟨0x736f6d6570736575, 0x646f72616e646f6d, 0x6c7967656e657261, 0x7465646279746573⟩

/-- Absorb one 64-bit message word with one compression round
(SipHash-1-3 uses a single SIPROUND per word). -/
def sipProcessBlock (s : SipState) (m : Nat) : SipState :=
  let s1 : SipState := ⟨s.v0, s.v1, s.v2, s.v3 ^^^ m⟩
  let s2 := sipRound s1
  ⟨s2.v0 ^^^ m, s2.v1, s2.v2, s2.v3⟩

/-- Finalization of SipHash-1-3 as in the Rust standard library: absorb the
word combining the message length (top byte) with the unprocessed tail
bytes, xor 0xff into v2, run three rounds and xor the four state words. -/
def sipFinalize (s : SipState) (len tail : Nat) : Nat :=
  let b := ((len % 256) <<< 56) ||| tail
  let s1 := sipProcessBlock s b
  let s2 : SipState := ⟨s1.v0, s1.v1, s1.v2 ^^^ 0xff, s1.v3⟩
  let s3 := sipRound (sipRound (sipRound s2))
  s3.v0 ^^^ s3.v1 ^^^ s3.v2 ^^^ s3.v3

/-- The 64-bit digest `DefaultHasher::new()` followed by `hash(&handle)` and
`finish()` for a `usize` handle on the wasm32 target the crate builds for:
`usize` is 32 bits, so four little-endian bytes are absorbed, all of which
sit in the tail of the final word. -/
def default_hasher_usize (h : Nat) : Nat :=
  sipFinalize sipInit 4 (h % 4294967296)

/-- Fill color of a player, mirroring `game::arbitrary_color` applied to the
player handle: the r, g, b channels are the three lowest little-endian
bytes of the 64-bit digest. -/
def arbitrary_color (handle : Nat) : Color :=
  let s := default_hasher_usize handle
  ⟨s % 256, (s >>> 8) % 256, (s >>> 16) % 256⟩

/-- Pixels written by `Player::draw` (the `Sprite` impl for `Player`): every
point of the player's bounds that lies inside RENDER_RECT is colored with
`arbitrary_color` of the handle; nothing else is written. -/
def player_draw_writes (handle : Nat) (bounds : Rect) (p : Point) : Option Color :=
  if bounds.contains p ∧ RENDER_RECT.contains p then some (arbitrary_color handle)
  else none

/-- Claim C8 fails on the code: the fill colors of the two spawned handles
(0 and 1) are hash-derived RGB triples, not entries of the pallet, so in
particular they are not the pallet color at index hash(handle) mod 3 + 1. -/
theorem c8_cex :
    arbitrary_color 0 = ⟨240, 138, 196⟩ ∧
    arbitrary_color 1 = ⟨144, 112, 123⟩ ∧
    PALLET.get? 1 ≠ some (arbitrary_color 0) ∧
    PALLET.get? 2 ≠ some (arbitrary_color 0) ∧
    PALLET.get? 3 ≠ some (arbitrary_color 0) ∧
    PALLET.get? 1 ≠ some (arbitrary_color 1) ∧
    PALLET.get? 2 ≠ some (arbitrary_color 1) ∧
    PALLET.get? 3 ≠ some (arbitrary_color 1) := by
  refine ⟨by decide, by decide, ?_, ?_, ?_, ?_, ?_, ?_⟩ <;> decide

/-- Claim C8 (amended): the filled rectangle drawn for a player covers
exactly the points of its bounds inside RENDER_RECT, in the color whose
channels are the three lowest little-endian bytes of the DefaultHasher
(SipHash-1-3 with zero keys) digest of the handle; the color is a pure
function of the handle, so both peers render identical colors, but it is
not selected from the pallet. -/
theorem c8_draw_hash_color (handle : Nat) (bounds : Rect) (p : Point)
    (h : bounds.contains p ∧ RENDER_RECT.contains p) :
    player_draw_writes handle bounds p =
      some ⟨default_hasher_usize handle % 256,
            (default_hasher_usize handle >>> 8) % 256,
            (default_hasher_usize handle >>> 16) % 256⟩ := by
  simp only [player_draw_writes, arbitrary_color]
  rw [if_pos h]

/-- Witness for c8_draw_hash_color: handle 0 at the spawn position. -/
theorem c8_draw_hash_color_witness :
    ((⟨⟨10, 10⟩, ⟨10, 10⟩⟩ : Rect).contains ⟨12, 12⟩ ∧
      RENDER_RECT.contains ⟨12, 12⟩) ∧
    player_draw_writes 0 ⟨⟨10, 10⟩, ⟨10, 10⟩⟩ ⟨12, 12⟩ =
      some ⟨default_hasher_usize 0 % 256,
            (default_hasher_usize 0 >>> 8) % 256,
            (default_hasher_usize 0 >>> 16) % 256⟩ :=
  ⟨by decide,
   c8_draw_hash_color 0 ⟨⟨10, 10⟩, ⟨10, 10⟩⟩ ⟨12, 12⟩ (by decide)⟩

/-- Application states, mirroring the `AppState` the menu entries carry
(declared outside the files under src, used by `menu.rs` and `net.rs`). -/
inductive AppState where
  | menu
  | singlePlayerGame
  | multiplayerGame
deriving DecidableEq

/-- The menu cursor state, mirroring `menu::Menu` together with the pieces of
the world it mutates: the marker's Bounds origin.y and the colors of the
entry text boxes. -/
structure Menu where
  pos : Nat
  entries : List AppState
  markerY : Int
  colors : List Color
deriving DecidableEq

/-- Construction of a menu, mirroring `Menu::new` plus the text boxes made
by `Menu::spawn`: the cursor starts at 0, the first entry is colored
PALLET[3] (selected) and the rest PALLET[1] (dim). `Menu::new` asserts the
entry list is non-empty. -/
def Menu.new (entries : List AppState) (markerY : Int) : Menu :=
  { pos := 0, entries := entries, markerY := markerY,
    colors := (List.range entries.length).map fun i =>
      if i = 0 then ⟨250, 232, 150⟩ else ⟨28, 124, 148⟩ }

/-- Cursor up, mirroring `Menu::up`: only when pos is positive, recolor the
current entry dim, decrement pos, recolor the new entry selected, and move
the marker 10 pixels up. -/
def Menu.up (m : Menu) : Menu :=
  if 0 < m.pos then
    { m with
      colors := (m.colors.set m.pos ⟨28, 124, 148⟩).set (m.pos - 1) ⟨250, 232, 150⟩,
      pos := m.pos - 1,
      markerY := m.markerY - 10 }
  else m

/-- Cursor down, mirroring `Menu::down`: only when pos is below
entries.len() - 1, recolor the current entry dim, increment pos, recolor the
new entry selected, and move the marker 10 pixels down. -/
def Menu.down (m : Menu) : Menu :=
  if m.pos < m.entries.length - 1 then
    { m with
      colors := (m.colors.set m.pos ⟨28, 124, 148⟩).set (m.pos + 1) ⟨250, 232, 150⟩,
      pos := m.pos + 1,
      markerY := m.markerY + 10 }
  else m

/-- One cursor movement delivered by `Menu::update` (an Up or Down input). -/
inductive MenuOp where
  | up
  | down
deriving DecidableEq

/-- Apply one cursor movement. -/
def Menu.apply (m : Menu) : MenuOp → Menu
  | .up => m.up
  | .down => m.down

/-- Apply a sequence of cursor movements, as `Menu::update` does for the
drained input queue. -/
def Menu.applyAll (m : Menu) (ops : List MenuOp) : Menu :=
  ops.foldl Menu.apply m

/-- Helper: a cursor movement preserves the entry list and keeps the cursor
within bounds. -/
theorem Menu.apply_invariant (m : Menu) (op : MenuOp)
    (h : m.pos < m.entries.length) :
    (m.apply op).entries = m.entries ∧ (m.apply op).pos < m.entries.length := by
  cases op <;> simp only [Menu.apply, Menu.up, Menu.down] <;> split_ifs <;>
    refine ⟨rfl, ?_⟩ <;> dsimp only <;> omega

/-- Helper: any sequence of cursor movements preserves the entry list and
keeps the cursor within bounds. -/
theorem Menu.applyAll_invariant (ops : List MenuOp) (m : Menu)
    (h : m.pos < m.entries.length) :
    (m.applyAll ops).entries = m.entries ∧
    (m.applyAll ops).pos < m.entries.length := by
  induction ops generalizing m with
  | nil => exact ⟨rfl, h⟩
  | cons op ops ih =>
    have h1 := Menu.apply_invariant m op h
    have h2 := ih (m.apply op) (h1.1 ▸ h1.2)
    exact ⟨h2.1.trans h1.1, h1.1 ▸ h2.2⟩

/-- Claim C10: starting from a menu built on a non-empty entry list, any
sequence of up and down movements keeps the cursor position within
[0, entries.len()); moreover up decrements the position exactly when it is
positive and down increments it exactly when it is below entries.len() - 1,
each moving the marker by exactly 10 pixels in the corresponding direction
and otherwise changing nothing. -/
theorem c10_menu_cursor (entries : List AppState) (y0 : Int)
    (hne : entries ≠ []) (ops : List MenuOp) :
    ((Menu.new entries y0).applyAll ops).pos < entries.length ∧
    (∀ m : Menu,
      (0 < m.pos → m.up.pos = m.pos - 1 ∧ m.up.markerY = m.markerY - 10) ∧
      (m.pos = 0 → m.up = m) ∧
      (m.pos < m.entries.length - 1 →
        m.down.pos = m.pos + 1 ∧ m.down.markerY = m.markerY + 10) ∧
      (¬ m.pos < m.entries.length - 1 → m.down = m)) := by
  constructor
  · have h0 : (Menu.new entries y0).pos < (Menu.new entries y0).entries.length := by
      simp only [Menu.new]
      exact List.length_pos.2 hne
    exact ((Menu.new entries y0).applyAll_invariant ops h0).2
  · intro m
    refine ⟨fun h => ?_, fun h => ?_, fun h => ?_, fun h => ?_⟩
    · rw [Menu.up, if_pos h]
      exact ⟨rfl, rfl⟩
    · rw [Menu.up, if_neg (by omega)]
    · rw [Menu.down, if_pos h]
      exact ⟨rfl, rfl⟩
    · rw [Menu.down, if_neg h]

/-- Witness for c10_menu_cursor on the actual menu of `menu::spawn_sprites`
(single player / multiplayer at y = 60) under a concrete movement sequence. -/
theorem c10_menu_cursor_witness :
    ([AppState.singlePlayerGame, AppState.multiplayerGame] ≠ ([] : List AppState)) ∧
    (((Menu.new [AppState.singlePlayerGame, AppState.multiplayerGame] 60).applyAll
        [MenuOp.down, MenuOp.down, MenuOp.up]).pos <
      [AppState.singlePlayerGame, AppState.multiplayerGame].length ∧
    (∀ m : Menu,
      (0 < m.pos → m.up.pos = m.pos - 1 ∧ m.up.markerY = m.markerY - 10) ∧
      (m.pos = 0 → m.up = m) ∧
      (m.pos < m.entries.length - 1 →
        m.down.pos = m.pos + 1 ∧ m.down.markerY = m.markerY + 10) ∧
      (¬ m.pos < m.entries.length - 1 → m.down = m))) :=
  ⟨by decide,
   c10_menu_cursor [AppState.singlePlayerGame, AppState.multiplayerGame] 60
     (by decide) [MenuOp.down, MenuOp.down, MenuOp.up]⟩

end FrogQuest
